import Mathlib

/-!
Verification development for the n8n webhook integration router
(src/backend/open_webui/routers/n8n_webhook.py).

The Python module is shallowly embedded: the async generator
stream_n8n_response becomes a pure function from the results of its
I/O primitives (the upstream status, the upstream body chunks, the
parsed JSON result, and any exception raised at each point) to the
list of SSE frames it yields and the list of log lines it emits.
Randomness (uuid4) and wall-clock time (time.time) are passed in as
explicit parameters.  JSON serialization (json.dumps with its default
separators and ensure_ascii escaping) and Python str()/repr() are
modelled on a JSON value type; repr of non-printable non-ASCII
characters is kept raw (the model covers printable text).
-/

/-- Characters stripped by Python str.strip() with no argument:
the Unicode whitespace set used by str.isspace. -/
def pyIsSpace (c : Char) : Bool :=
  let n := c.toNat
  n = 32 || (9 ≤ n && n ≤ 13) || (28 ≤ n && n ≤ 31) || n = 0x85 || n = 0xa0 ||
  n = 0x1680 || (0x2000 ≤ n && n ≤ 0x200a) || n = 0x2028 || n = 0x2029 ||
  n = 0x202f || n = 0x205f || n = 0x3000

/-- Python str.strip(): remove leading and trailing whitespace. -/
def pyStrip (s : String) : String :=
  String.mk (((s.toList.dropWhile pyIsSpace).reverse.dropWhile pyIsSpace).reverse)

/-- Python s.startswith(pre), stated on the character lists. -/
def pyStartsWith (s pre : String) : Bool :=
  List.isPrefixOf pre.toList s.toList

/-- Lowercase hexadecimal digit character for a value below 16. -/
def hexDigitChar (n : Nat) : Char :=
  if n < 10 then Char.ofNat (48 + n) else Char.ofNat (87 + n)

/-- Fixed-width lowercase hexadecimal digits of a natural number,
most significant nibble first (k digits, leading zeros kept). -/
def natToHexAux : Nat → Nat → List Char
  | 0, _ => []
  | k + 1, n => natToHexAux k (n / 16) ++ [hexDigitChar (n % 16)]

/-- Model of uuid.uuid4().hex[:8]: the first 8 of the 32 lowercase hex
digits of the 128-bit random value, prefixed as in the source f-string. -/
def chatcmplId (uuidBits : Nat) : String :=
  "chatcmpl-" ++ String.mk ((natToHexAux 32 uuidBits).take 8)

/-- Python values produced by json.loads / placed into json.dumps.
Numbers are restricted to integers: no claim involves a float value. -/
inductive JVal where
  | null
  | bool (b : Bool)
  | int (n : Int)
  | str (s : String)
  | arr (elems : List JVal)
  | obj (fields : List (String × JVal))

/-- Four lowercase hex digits (used for json.dumps \u escapes). -/
def hex4 (n : Nat) : String := String.mk (natToHexAux 4 n)

/-- Escaping of one character by json.dumps with ensure_ascii=True
(the default): named escapes for the common controls, \uXXXX (with a
surrogate pair beyond the BMP) for everything outside 0x20..0x7e. -/
def jsonEscapeChar (c : Char) : String :=
  let n := c.toNat
  if n = 34 then "\\\""
  else if n = 92 then "\\\\"
  else if n = 10 then "\\n"
  else if n = 13 then "\\r"
  else if n = 9 then "\\t"
  else if n = 8 then "\\b"
  else if n = 12 then "\\f"
  else if n < 32 || n > 126 then
    if n ≥ 0x10000 then
      let m := n - 0x10000
      "\\u" ++ hex4 (0xd800 + m / 0x400) ++ "\\u" ++ hex4 (0xdc00 + m % 0x400)
    else "\\u" ++ hex4 n
  else String.singleton c

/-- json.dumps rendering of a Python string (quoted, escaped). -/
def jsonQuote (s : String) : String :=
  "\"" ++ String.join (s.toList.map jsonEscapeChar) ++ "\""

mutual

/-- json.dumps with the default separators (", " between items and
": " after keys) and ensure_ascii escaping, as the source calls it. -/
def jsonDumps : JVal → String
  | .null => "null"
  | .bool b => cond b "true" "false"
  | .int n => toString n
  | .str s => jsonQuote s
  | .arr elems => "[" ++ jsonDumpsArr elems ++ "]"
  | .obj fields => "\x7b" ++ jsonDumpsObj fields ++ "\x7d"

/-- Comma-joined json.dumps of array elements. -/
def jsonDumpsArr : List JVal → String
  | [] => ""
  | [v] => jsonDumps v
  | v :: w :: rest => jsonDumps v ++ ", " ++ jsonDumpsArr (w :: rest)

/-- Comma-joined json.dumps of object fields, key order preserved. -/
def jsonDumpsObj : List (String × JVal) → String
  | [] => ""
  | [(k, v)] => jsonQuote k ++ ": " ++ jsonDumps v
  | (k, v) :: f :: rest => jsonQuote k ++ ": " ++ jsonDumps v ++ ", " ++ jsonDumpsObj (f :: rest)

end

/-- Escaping of one character inside Python repr of a string with
quote character q.  Non-ASCII characters are kept raw (the model is
exact for printable text, which repr leaves unescaped). -/
def pyReprEscape (q : Char) (c : Char) : String :=
  let n := c.toNat
  if n = 92 then "\\\\"
  else if c = q then "\\" ++ String.singleton q
  else if n = 10 then "\\n"
  else if n = 13 then "\\r"
  else if n = 9 then "\\t"
  else if n < 32 || n = 127 then "\\x" ++ String.mk (natToHexAux 2 n)
  else String.singleton c

/-- Python repr of a string: single-quoted, unless the text contains a
single quote and no double quote, in which case double-quoted. -/
def pyReprStr (s : String) : String :=
  let hasSingle := s.toList.contains (Char.ofNat 39)
  let hasDouble := s.toList.contains (Char.ofNat 34)
  let q := if hasSingle && !hasDouble then Char.ofNat 34 else Char.ofNat 39
  String.singleton q ++ String.join (s.toList.map (pyReprEscape q)) ++ String.singleton q

mutual

/-- Python str()/repr() of a parsed JSON value: None/True/False,
repr-quoted strings, bracketed lists, braced dicts. -/
def pyRepr : JVal → String
  | .null => "None"
  | .bool b => cond b "True" "False"
  | .int n => toString n
  | .str s => pyReprStr s
  | .arr elems => "[" ++ pyReprArr elems ++ "]"
  | .obj fields => "\x7b" ++ pyReprObj fields ++ "\x7d"

/-- Comma-joined repr of list elements. -/
def pyReprArr : List JVal → String
  | [] => ""
  | [v] => pyRepr v
  | v :: w :: rest => pyRepr v ++ ", " ++ pyReprArr (w :: rest)

/-- Comma-joined repr of dict entries. -/
def pyReprObj : List (String × JVal) → String
  | [] => ""
  | [(k, v)] => pyReprStr k ++ ": " ++ pyRepr v
  | (k, v) :: f :: rest => pyReprStr k ++ ": " ++ pyRepr v ++ ", " ++ pyReprObj (f :: rest)

end

/-- Python dict.get(key, default): the value of the first matching key
when present (even when that value is null), the default otherwise. -/
def pyGet (fields : List (String × JVal)) (key : String) (dflt : JVal) : JVal :=
  match fields with
  | [] => dflt
  | (k, v) :: rest => if k = key then v else pyGet rest key dflt

/-- Source line result.get("content", result.get("response", str(result))):
the content placed into the synthesized completion message. -/
def contentOf (result : List (String × JVal)) : JVal :=
  pyGet result "content" (pyGet result "response" (.str (pyRepr (.obj result))))

/-- Source dict formatted_response, built field for field in order:
id, object, created, model, choices (one choice: index, message with
role and content, finish_reason), usage with the three zero counters. -/
def formattedResponse (uuidBits : Nat) (now : Int) (model : String) (content : JVal) : JVal :=
  .obj [
    ("id", .str (chatcmplId uuidBits)),
    ("object", .str "chat.completion"),
    ("created", .int now),
    ("model", .str model),
    ("choices", .arr [
      .obj [
        ("index", .int 0),
        ("message", .obj [("role", .str "assistant"), ("content", content)]),
        ("finish_reason", .str "stop")
      ]
    ]),
    ("usage", .obj [
      ("prompt_tokens", .int 0),
      ("completion_tokens", .int 0),
      ("total_tokens", .int 0)
    ])
  ]

/-- Classification of an exception caught by stream_n8n_response:
aiohttp.ClientError versus any other Exception. -/
inductive Cause where
  | clientError (msg : String)
  | unexpected (msg : String)
deriving DecidableEq

/-- SSE frame yielded by the two except clauses, with the message
prefix chosen by the cause classification. -/
def causeFrame : Cause → String
  | .clientError m =>
      "data: " ++ jsonDumps (.obj [("error", .str ("Connection error: " ++ m))]) ++ "\n\n"
  | .unexpected m =>
      "data: " ++ jsonDumps (.obj [("error", .str ("Unexpected error: " ++ m))]) ++ "\n\n"

/-- Log line emitted by the two except clauses. -/
def causeLog : Cause → String
  | .clientError m => "n8n webhook connection error: " ++ m
  | .unexpected m => "n8n webhook unexpected error: " ++ m

/-- SSE frame yielded on a non-200 upstream status. -/
def webhookErrorFrame (body : String) : String :=
  "data: " ++ jsonDumps (.obj [("error", .str ("n8n webhook error: " ++ body))]) ++ "\n\n"

/-- Results of the I/O primitives the generator performs, in program
order: a fault raised while opening the connection, the response
status, response.text() for the error branch, the decoded lines of
response.content with a fault possibly raised while iterating them,
and response.json() (a dict) with a fault possibly raised by it. -/
structure UpstreamEnv where
  connectFault : Option Cause := none
  status : Nat := 200
  errorText : String := ""
  chunks : List String := []
  streamFault : Option Cause := none
  result : List (String × JVal) := []
  jsonFault : Option Cause := none

/-- Streaming-branch loop over response.content: skip empty lines,
decode and strip, re-emit lines already carrying the SSE prefix with a
blank-line terminator, wrap other non-empty lines, drop empty ones. -/
def relayChunks : List String → List String
  | [] => []
  | line :: rest =>
    (if line = "" then []
     else
       let decoded := pyStrip line
       if pyStartsWith decoded "data: " then [decoded ++ "\n\n"]
       else if decoded = "" then []
       else ["data: " ++ decoded ++ "\n\n"])
    ++ relayChunks rest

/-- Frames yielded and log lines emitted by one run of the generator. -/
structure GenOutput where
  frames : List String
  logs : List String
deriving DecidableEq

/-- Outbound request headers built at the top of stream_n8n_response:
Content-Type always, Authorization only when auth_token is truthy
(present and non-empty). -/
def requestHeaders (authToken : Option String) : List (String × String) :=
  ("Content-Type", "application/json") ::
    (match authToken with
     | some t => if t = "" then [] else [("Authorization", "Bearer " ++ t)]
     | none => [])

/-- Caller identity attached to the outbound envelope under "user". -/
structure N8NUserPayload where
  id : String
  name : String
  email : String
  role : String

/-- Verified user supplied by get_verified_user. -/
structure UserModel where
  id : String
  name : String
  email : String
  role : String

/-- Pydantic request body N8NChatCompletionRequest.  Numeric sampling
parameters are carried opaquely (no claim computes with them) and are
modelled as rationals; defaults mirror the config defaults. -/
structure N8NChatCompletionRequest where
  model : String := "n8n-agent"
  messages : List JVal := []
  stream : Bool := false
  temperature : Option Rat := some (7 / 10)
  max_tokens : Option Int := some 2048
  top_p : Option Rat := some 1
  frequency_penalty : Option Rat := some 0
  presence_penalty : Option Rat := some 0
  user : Option String := none

/-- Outbound n8n_request dict: the request fields plus the caller
identity object under "user". -/
structure N8NEnvelope where
  model : String
  messages : List JVal
  stream : Bool
  temperature : Option Rat
  max_tokens : Option Int
  top_p : Option Rat
  frequency_penalty : Option Rat
  presence_penalty : Option Rat
  user : N8NUserPayload

/-- Construction of n8n_request inside chat_completions.  The body's
own user field is not among the copied fields; the user key holds the
verified caller's id, name, email and role. -/
def n8n_request (body : N8NChatCompletionRequest) (user : UserModel) : N8NEnvelope :=
  { model := body.model
    messages := body.messages
    stream := body.stream
    temperature := body.temperature
    max_tokens := body.max_tokens
    top_p := body.top_p
    frequency_penalty := body.frequency_penalty
    presence_penalty := body.presence_penalty
    user := { id := user.id, name := user.name, email := user.email, role := user.role } }

/-- The generator stream_n8n_response as a function of the request
data, the auth token argument, the upstream I/O results, the 128-bit
uuid4 value and the int(time.time()) timestamp.  The branch order
mirrors the source: connection fault, non-200 status, streaming
relay (with a possible mid-iteration fault), buffered synthesis (with
a possible response.json() fault) ending in the [DONE] frame. -/
def stream_n8n_response (requestData : N8NEnvelope) (authToken : Option String)
    (env : UpstreamEnv) (uuidBits : Nat) (now : Int) : GenOutput :=
  match env.connectFault with
  | some c => { frames := [causeFrame c], logs := [causeLog c] }
  | none =>
    if env.status ≠ 200 then
      { frames := [webhookErrorFrame env.errorText],
        logs := ["n8n webhook error: " ++ toString env.status ++ " - " ++ env.errorText] }
    else if requestData.stream then
      match env.streamFault with
      | some c => { frames := relayChunks env.chunks ++ [causeFrame c], logs := [causeLog c] }
      | none => { frames := relayChunks env.chunks, logs := [] }
    else
      match env.jsonFault with
      | some c => { frames := [causeFrame c], logs := [causeLog c] }
      | none =>
        { frames := ["data: " ++
              jsonDumps (formattedResponse uuidBits now requestData.model (contentOf env.result)) ++
              "\n\n",
            "data: [DONE]\n\n"],
          logs := [] }

/-- HTTPException raised by the router. -/
structure HTTPExceptionModel where
  status_code : Nat
  detail : String
deriving DecidableEq

/-- StreamingResponse returned by chat_completions: the generator's
arguments together with the media type and response headers. -/
structure StreamingResponseModel where
  url : String
  request_data : N8NEnvelope
  auth_token : Option String
  media_type : String
  headers : List (String × String)

/-- Auth-token argument passed by chat_completions to the generator:
the configured token unless it equals its placeholder. -/
def passedAuthToken (cfgToken : String) : Option String :=
  if cfgToken ≠ "YOUR_N8N_WEBHOOK_AUTH_TOKEN" then some cfgToken else none

/-- The chat_completions endpoint: logs the caller's email, rejects an
unset (empty, Python-falsy) or placeholder webhook URL with HTTP 500
before building the envelope, and otherwise returns the streaming
response description wired to the generator. -/
def chat_completions (webhookUrlCfg authTokenCfg : String)
    (body : N8NChatCompletionRequest) (user : UserModel) :
    Except HTTPExceptionModel StreamingResponseModel × List String :=
  let logs := ["n8n chat completion request from user: " ++ user.email]
  if webhookUrlCfg = "" || webhookUrlCfg = "YOUR_N8N_WEBHOOK_URL" then
    (Except.error { status_code := 500,
                    detail := "n8n webhook URL not configured. Please set the N8N_WEBHOOK_URL." },
      logs)
  else
    (Except.ok { url := webhookUrlCfg,
                 request_data := n8n_request body user,
                 auth_token := passedAuthToken authTokenCfg,
                 media_type := "text/event-stream",
                 headers := [("Cache-Control", "no-cache"), ("Connection", "keep-alive"),
                   ("X-Accel-Buffering", "no")] }, logs)

/-- Body returned by the status endpoint. -/
structure StatusResponse where
  status : String
  configured : Bool
  model : String
  description : String
deriving DecidableEq

/-- The GET / status endpoint: configured is the comparison of the URL
against the placeholder only. -/
def get_status (webhookUrlCfg : String) : StatusResponse :=
  let configured := webhookUrlCfg != "YOUR_N8N_WEBHOOK_URL"
  { status := if configured then "ready" else "not_configured"
    configured := configured
    model := "n8n-agent"
    description := "n8n Webhook Integration for Open WebUI" }

/-- Recognizer for the error frames the generator can yield: all three
begin with the same serialized head. -/
def isErrorFrame (s : String) : Bool :=
  List.isPrefixOf ("data: \x7b\"error\": \"").toList s.toList

/-- The chunk rule exactly as the spec sentence states it, with only
trailing whitespace stripped (used to compare against the code). -/
def specChunkRule (s : String) : Option String :=
  let t := String.mk ((s.toList.reverse.dropWhile pyIsSpace).reverse)
  if pyStartsWith t "data: " then some (t ++ "\n\n")
  else if t = "" then none
  else some ("data: " ++ t ++ "\n\n")

/-- The chunk rule with leading and trailing whitespace stripped, the
amended reading matching Python str.strip(). -/
def amendedChunkRule (s : String) : Option String :=
  let t := pyStrip s
  if pyStartsWith t "data: " then some (t ++ "\n\n")
  else if t = "" then none
  else some ("data: " ++ t ++ "\n\n")

/-- Lowercase hexadecimal digit recognizer (0-9 and a-f). -/
def isLowerHexDigit (c : Char) : Bool :=
  let n := c.toNat
  (48 ≤ n && n ≤ 57) || (97 ≤ n && n ≤ 102)

/-- Verified caller used by the concrete witnesses below. -/
def egUser : UserModel :=
  { id := "u1", name := "Alice", email := "alice@example.com", role := "user" }

/-- Envelope of a default (non-streaming) request from that caller. -/
def egEnvelope : N8NEnvelope := n8n_request {} egUser

/-- The same envelope with the stream flag raised. -/
def egStreamEnvelope : N8NEnvelope := { egEnvelope with stream := true }

theorem strData_append (a b : String) : (a ++ b).data = a.data ++ b.data := rfl

theorem strToList_append (a b : String) : (a ++ b).toList = a.toList ++ b.toList := rfl

theorem strAppend_assoc (a b c : String) : a ++ b ++ c = a ++ (b ++ c) :=
  String.ext (List.append_assoc a.toList b.toList c.toList)

theorem listIsPrefixOf_iff (p l : List Char) :
    List.isPrefixOf p l = true ↔ ∃ t, l = p ++ t := by
  induction p generalizing l with
  | nil => simp [List.isPrefixOf]
  | cons a p ih =>
    cases l with
    | nil => simp [List.isPrefixOf]
    | cons b l =>
      simp only [List.isPrefixOf, Bool.and_eq_true, beq_iff_eq, ih, List.cons_append,
        List.cons.injEq]
      constructor
      · rintro ⟨rfl, t, rfl⟩
        exact ⟨t, rfl, rfl⟩
      · rintro ⟨t, rfl, rfl⟩
        exact ⟨rfl, t, rfl⟩

theorem listIsPrefixOf_append (p r : List Char) : List.isPrefixOf p (p ++ r) = true :=
  (listIsPrefixOf_iff p (p ++ r)).mpr ⟨r, rfl⟩

theorem getLast?_append_singleton (l : List String) (a : String) :
    (l ++ [a]).getLast? = some a :=
  List.getLast?_concat l

/-- The json.dumps serialization of the one-field error object, split
as a concrete head followed by the escaped message and a tail. -/
theorem errObjDumps (m : String) :
    jsonDumps (.obj [("error", .str m)]) =
      "\x7b\"error\": \"" ++ (String.join (m.toList.map jsonEscapeChar) ++ "\"\x7d") := by
  have he : jsonQuote "error" = "\"error\"" := by decide
  simp only [jsonDumps, jsonDumpsObj]
  rw [he, jsonQuote]
  apply String.ext
  simp only [strData_append, List.append_assoc]
  rfl

theorem isErrorFrame_errObj (m : String) :
    isErrorFrame ("data: " ++ jsonDumps (.obj [("error", .str m)]) ++ "\n\n") = true := by
  rw [errObjDumps, isErrorFrame]
  apply (listIsPrefixOf_iff _ _).mpr
  refine ⟨(String.join (m.toList.map jsonEscapeChar) ++ "\"\x7d").toList ++ ("\n\n").toList, ?_⟩
  have hpat : ("data: \x7b\"error\": \"").toList = ("data: ").toList ++ ("\x7b\"error\": \"").toList := by
    decide
  rw [hpat]
  simp only [strToList_append, List.append_assoc]

theorem isErrorFrame_causeFrame (c : Cause) : isErrorFrame (causeFrame c) = true := by
  cases c <;> exact isErrorFrame_errObj _

theorem isErrorFrame_webhook (body : String) :
    isErrorFrame (webhookErrorFrame body) = true :=
  isErrorFrame_errObj _

theorem natToHexAux_length (k : Nat) : ∀ n, (natToHexAux k n).length = k := by
  induction k with
  | zero => intro n; rfl
  | succ k ih => intro n; simp [natToHexAux, ih]

theorem hexDigitChar_isLower (j : Nat) (h : j < 16) : isLowerHexDigit (hexDigitChar j) = true := by
  have hall : ∀ i, i < 16 → isLowerHexDigit (hexDigitChar i) = true := by decide
  exact hall j h

theorem natToHexAux_lowerHex (k : Nat) :
    ∀ n, ∀ c ∈ natToHexAux k n, isLowerHexDigit c = true := by
  induction k with
  | zero => intro n c hc; simp [natToHexAux] at hc
  | succ k ih =>
    intro n c hc
    rw [natToHexAux] at hc
    rcases List.mem_append.mp hc with h | h
    · exact ih _ c h
    · rw [List.mem_singleton] at h
      subst h
      exact hexDigitChar_isLower _ (Nat.mod_lt _ (by decide))

theorem pyGet_eq_lookup (fields : List (String × JVal)) (key : String) (dflt : JVal) :
    pyGet fields key dflt = (fields.lookup key).getD dflt := by
  induction fields with
  | nil => rfl
  | cons f rest ih =>
    obtain ⟨k, v⟩ := f
    rw [pyGet, List.lookup]
    by_cases hk : k = key
    · simp [hk]
    · have hbeq : (key == k) = false := by
        rw [beq_eq_false_iff_ne]
        exact fun h => hk h.symm
      simp [List.lookup, hk, hbeq, ih]

theorem relayChunks_eq_filterMap (cs : List String) :
    relayChunks cs = cs.filterMap amendedChunkRule := by
  induction cs with
  | nil => rfl
  | cons line rest ih =>
    rw [relayChunks, ih, List.filterMap_cons]
    by_cases h0 : line = ""
    · subst h0
      have ha : amendedChunkRule "" = none := by decide
      simp [ha]
    · rw [if_neg h0]
      by_cases hp : pyStartsWith (pyStrip line) "data: " = true
      · simp [amendedChunkRule, hp]
      · have hps : pyStartsWith "" "data: " = false := by decide
        by_cases he : pyStrip line = ""
        · simp [amendedChunkRule, hp, he, hps]
        · simp [amendedChunkRule, hp, he]

theorem relayChunks_sse (cs : List String) :
    ∀ f ∈ relayChunks cs, ∃ core, f = "data: " ++ core ++ "\n\n" := by
  induction cs with
  | nil => intro f hf; simp [relayChunks] at hf
  | cons line rest ih =>
    intro f hf
    rw [relayChunks] at hf
    rcases List.mem_append.mp hf with h | h
    · by_cases h0 : line = ""
      · rw [if_pos h0] at h
        simp at h
      · rw [if_neg h0] at h
        by_cases hp : pyStartsWith (pyStrip line) "data: " = true
        · rw [if_pos hp] at h
          rw [List.mem_singleton] at h
          subst h
          rw [pyStartsWith] at hp
          obtain ⟨t, ht⟩ := (listIsPrefixOf_iff _ _).mp hp
          have hsplit : pyStrip line = "data: " ++ String.mk t := by
            apply String.ext
            exact ht
          exact ⟨String.mk t, by rw [hsplit]⟩
        · rw [if_neg hp] at h
          by_cases he : pyStrip line = ""
          · rw [if_pos he] at h
            simp at h
          · rw [if_neg he, List.mem_singleton] at h
            subst h
            exact ⟨pyStrip line, rfl⟩
    · exact ih f h

theorem frames_sse (requestData : N8NEnvelope) (authToken : Option String)
    (env : UpstreamEnv) (uuidBits : Nat) (now : Int) :
    ∀ f ∈ (stream_n8n_response requestData authToken env uuidBits now).frames,
      ∃ core, f = "data: " ++ core ++ "\n\n" := by
  cases hcf : env.connectFault with
  | some c =>
    simp only [stream_n8n_response, hcf]
    intro f hf
    rw [List.mem_singleton] at hf
    subst hf
    cases c <;> exact ⟨_, rfl⟩
  | none =>
    by_cases h200 : env.status = 200
    · cases hs : requestData.stream with
      | true =>
        cases hsf : env.streamFault with
        | some c =>
          simp [stream_n8n_response, hcf, h200, hs, hsf]
          intro f hf
          rcases hf with h | h
          · exact relayChunks_sse _ f h
          · subst h
            cases c <;> exact ⟨_, rfl⟩
        | none =>
          simp [stream_n8n_response, hcf, h200, hs, hsf]
          intro f hf
          exact relayChunks_sse _ f hf
      | false =>
        cases hj : env.jsonFault with
        | some c =>
          simp [stream_n8n_response, hcf, h200, hs, hj]
          cases c <;> exact ⟨_, rfl⟩
        | none =>
          simp [stream_n8n_response, hcf, h200, hs, hj]
          exact ⟨⟨_, rfl⟩, "[DONE]", by decide⟩
    · simp [stream_n8n_response, hcf, h200]
      exact ⟨_, rfl⟩

/-- C1 counterexample: a successful streaming relay whose upstream sent
the single chunk "hello" and then closed produces the one frame
"data: hello" and ends; its last frame is neither the literal
data: [DONE] frame nor an error frame, so the claim as stated fails. -/
theorem C1_cex :
    (stream_n8n_response egStreamEnvelope none { chunks := ["hello"] } 0 0).frames
        = ["data: hello\n\n"] ∧
    (stream_n8n_response egStreamEnvelope none { chunks := ["hello"] } 0 0).frames.getLast?
        = some "data: hello\n\n" ∧
    ¬ ("data: hello\n\n" = "data: [DONE]\n\n" ∨ isErrorFrame "data: hello\n\n" = true) := by
  refine ⟨by decide, by decide, by decide⟩

/-- C1 (amended): for every upstream outcome other than a fault-free
streaming relay — buffered reply, non-200 status, or transport fault at
any point — the frame sequence ends with the literal data: [DONE] frame
or with an error frame.  The fault-free streaming branch is pass-through
only and ends when upstream closes, without an injected terminator. -/
theorem C1_terminal_frame (requestData : N8NEnvelope) (authToken : Option String)
    (env : UpstreamEnv) (uuidBits : Nat) (now : Int)
    (H : env.connectFault.isSome ∨ env.status ≠ 200 ∨ requestData.stream = false ∨
      env.streamFault.isSome) :
    ∃ f, (stream_n8n_response requestData authToken env uuidBits now).frames.getLast? = some f ∧
      (f = "data: [DONE]\n\n" ∨ isErrorFrame f = true) := by
  cases hcf : env.connectFault with
  | some c =>
    refine ⟨causeFrame c, ?_, Or.inr (isErrorFrame_causeFrame c)⟩
    simp [stream_n8n_response, hcf]
  | none =>
    by_cases h200 : env.status = 200
    · cases hs : requestData.stream with
      | false =>
        cases hj : env.jsonFault with
        | some c =>
          refine ⟨causeFrame c, ?_, Or.inr (isErrorFrame_causeFrame c)⟩
          simp [stream_n8n_response, hcf, h200, hs, hj]
        | none =>
          refine ⟨"data: [DONE]\n\n", ?_, Or.inl rfl⟩
          simp [stream_n8n_response, hcf, h200, hs, hj]
      | true =>
        cases hsf : env.streamFault with
        | some c =>
          refine ⟨causeFrame c, ?_, Or.inr (isErrorFrame_causeFrame c)⟩
          simp only [stream_n8n_response, hcf, h200, hs, hsf]
          simp [getLast?_append_singleton]
        | none =>
          exfalso
          rcases H with h | h | h | h
          · rw [hcf] at h; simp at h
          · exact h h200
          · rw [hs] at h; simp at h
          · rw [hsf] at h; simp at h
    · refine ⟨webhookErrorFrame env.errorText, ?_, Or.inr (isErrorFrame_webhook _)⟩
      simp [stream_n8n_response, hcf, h200]

/-- C1 witness: applying the amended terminal-frame theorem to a
concrete 503 outcome. -/
theorem C1_terminal_frame_witness :
    (({ status := 503, errorText := "overloaded" } : UpstreamEnv).connectFault.isSome ∨
      ({ status := 503, errorText := "overloaded" } : UpstreamEnv).status ≠ 200 ∨
      egEnvelope.stream = false ∨
      ({ status := 503, errorText := "overloaded" } : UpstreamEnv).streamFault.isSome) ∧
    (∃ f, (stream_n8n_response egEnvelope none { status := 503, errorText := "overloaded" } 0 0).frames.getLast?
        = some f ∧ (f = "data: [DONE]\n\n" ∨ isErrorFrame f = true)) :=
  ⟨by decide, C1_terminal_frame egEnvelope none _ 0 0 (by decide)⟩

/-- C2: a non-streaming reply accepted as success yields exactly one
synthesized completion frame followed by exactly one data: [DONE] frame:
the frame serializes formatted_response, whose id is "chatcmpl-" plus
8 lowercase hex characters of the uuid, created is the timestamp, model
is echoed, and the content falls back content, then response, then the
stringified whole reply (lookup characterization in the last conjunct);
the choice and zero usage counters are fixed in formattedResponse. -/
theorem C2_buffered_completion (requestData : N8NEnvelope) (authToken : Option String)
    (env : UpstreamEnv) (uuidBits : Nat) (now : Int)
    (hs : requestData.stream = false) (hcf : env.connectFault = none)
    (h200 : env.status = 200) (hj : env.jsonFault = none) :
    (stream_n8n_response requestData authToken env uuidBits now).frames
        = ["data: " ++
             jsonDumps (formattedResponse uuidBits now requestData.model (contentOf env.result)) ++
             "\n\n",
           "data: [DONE]\n\n"] ∧
    chatcmplId uuidBits = "chatcmpl-" ++ String.mk ((natToHexAux 32 uuidBits).take 8) ∧
    ((natToHexAux 32 uuidBits).take 8).length = 8 ∧
    (∀ c ∈ (natToHexAux 32 uuidBits).take 8, isLowerHexDigit c = true) ∧
    contentOf env.result
        = (env.result.lookup "content").getD
            ((env.result.lookup "response").getD (.str (pyRepr (.obj env.result)))) := by
  refine ⟨?_, rfl, ?_, ?_, ?_⟩
  · simp [stream_n8n_response, hcf, h200, hs, hj]
  · simp [List.length_take, natToHexAux_length]
  · intro c hc
    exact natToHexAux_lowerHex 32 uuidBits c (List.take_subset _ _ hc)
  · rw [contentOf, pyGet_eq_lookup, pyGet_eq_lookup]

/-- C2 witness: the buffered-reply theorem applied to the concrete
reply object containing content "hi". -/
theorem C2_buffered_completion_witness :
    egEnvelope.stream = false ∧
    (stream_n8n_response egEnvelope none { result := [("content", JVal.str "hi")] } 0 99).frames
        = ["data: " ++
             jsonDumps (formattedResponse 0 99 egEnvelope.model (contentOf [("content", JVal.str "hi")])) ++
             "\n\n",
           "data: [DONE]\n\n"] :=
  ⟨rfl, (C2_buffered_completion egEnvelope none _ 0 99 rfl rfl rfl rfl).1⟩

/-- C3 counterexample: the chunk "  data: x" (leading spaces) is
relayed by the code as "data: x" (Python strip removes the leading
whitespace, so the prefix test succeeds), while the claim's
trailing-only stripping rule would wrap it into "data:   data: x". -/
theorem C3_cex :
    (stream_n8n_response egStreamEnvelope none { chunks := ["  data: x"] } 0 0).frames
        = ["data: x\n\n"] ∧
    List.filterMap specChunkRule ["  data: x"] = ["data:   data: x\n\n"] ∧
    ¬ (stream_n8n_response egStreamEnvelope none { chunks := ["  data: x"] } 0 0).frames
        = List.filterMap specChunkRule ["  data: x"] := by
  refine ⟨by decide, by decide, by decide⟩

/-- C3 (amended): in a fault-free streaming relay every raw chunk is
processed by stripping leading AND trailing whitespace (Python
str.strip); a stripped chunk starting with "data: " is re-emitted
unchanged with a blank-line terminator, any other non-empty stripped
chunk is wrapped as "data: <text>", and chunks empty after stripping
produce no frame. -/
theorem C3_chunk_relay (requestData : N8NEnvelope) (authToken : Option String)
    (env : UpstreamEnv) (uuidBits : Nat) (now : Int)
    (hs : requestData.stream = true) (hcf : env.connectFault = none)
    (h200 : env.status = 200) (hsf : env.streamFault = none) :
    (stream_n8n_response requestData authToken env uuidBits now).frames
        = env.chunks.filterMap amendedChunkRule := by
  simp [stream_n8n_response, hcf, h200, hs, hsf]
  exact relayChunks_eq_filterMap _

/-- C3 witness: the amended relay rule applied to a mixed batch of
chunks (already-prefixed with leading spaces, bare text, whitespace). -/
theorem C3_chunk_relay_witness :
    egStreamEnvelope.stream = true ∧
    (stream_n8n_response egStreamEnvelope none
        { chunks := ["  data: x", "chunk", "   ", "data: y"] } 7 3).frames
      = List.filterMap amendedChunkRule ["  data: x", "chunk", "   ", "data: y"] :=
  ⟨rfl, C3_chunk_relay egStreamEnvelope none _ 7 3 rfl rfl rfl rfl⟩

/-- C4: whenever the upstream responded (no connection fault) with a
non-2xx status, the generator yields exactly the one SSE frame whose
JSON payload is the object with key error and value
"n8n webhook error: <body>", and nothing else: no content frame and no
data: [DONE] frame. -/
theorem C4_http_error (requestData : N8NEnvelope) (authToken : Option String)
    (env : UpstreamEnv) (uuidBits : Nat) (now : Int)
    (hcf : env.connectFault = none)
    (hstat : env.status < 200 ∨ 300 ≤ env.status) :
    (stream_n8n_response requestData authToken env uuidBits now).frames
        = [webhookErrorFrame env.errorText] ∧
    webhookErrorFrame env.errorText
        = "data: " ++
            jsonDumps (.obj [("error", .str ("n8n webhook error: " ++ env.errorText))]) ++
            "\n\n" := by
  have hne : env.status ≠ 200 := by omega
  refine ⟨?_, rfl⟩
  simp [stream_n8n_response, hcf, hne]

/-- C4 witness: the http-error theorem applied to a concrete 503 reply
with body "overloaded". -/
theorem C4_http_error_witness :
    (({ status := 503, errorText := "overloaded" } : UpstreamEnv).connectFault = none ∧
      (({ status := 503, errorText := "overloaded" } : UpstreamEnv).status < 200 ∨
        300 ≤ ({ status := 503, errorText := "overloaded" } : UpstreamEnv).status)) ∧
    (stream_n8n_response egEnvelope none { status := 503, errorText := "overloaded" } 0 0).frames
        = [webhookErrorFrame "overloaded"] :=
  ⟨⟨rfl, by decide⟩, (C4_http_error egEnvelope none _ 0 0 rfl (by decide)).1⟩

/-- C5 counterexample: a 201 reply is a 2xx success, yet the code
(which tests status != 200) takes the error-frame path, yielding the
webhook error frame instead of relaying the stream. -/
theorem C5_cex :
    (stream_n8n_response egStreamEnvelope none
        { status := 201, errorText := "created", chunks := ["x"] } 0 0).frames
        = [webhookErrorFrame "created"] ∧
    isErrorFrame (webhookErrorFrame "created") = true ∧
    ¬ (stream_n8n_response egStreamEnvelope none
        { status := 201, errorText := "created", chunks := ["x"] } 0 0).frames
        = ["data: x\n\n"] := by
  refine ⟨by decide, by decide, by decide⟩

/-- C5 (amended): the translator takes the success path exactly when
the upstream status is 200: any other status, including 2xx statuses
other than 200, yields the single webhook error frame; at status 200
the stream flag selects the raw-chunk relay or the synthesized
buffered completion. -/
theorem C5_status_branch (requestData : N8NEnvelope) (authToken : Option String)
    (env : UpstreamEnv) (uuidBits : Nat) (now : Int)
    (hcf : env.connectFault = none) :
    (env.status ≠ 200 →
      (stream_n8n_response requestData authToken env uuidBits now).frames
        = [webhookErrorFrame env.errorText]) ∧
    (env.status = 200 → requestData.stream = true → env.streamFault = none →
      (stream_n8n_response requestData authToken env uuidBits now).frames
        = relayChunks env.chunks) ∧
    (env.status = 200 → requestData.stream = false → env.jsonFault = none →
      (stream_n8n_response requestData authToken env uuidBits now).frames
        = ["data: " ++
             jsonDumps (formattedResponse uuidBits now requestData.model (contentOf env.result)) ++
             "\n\n",
           "data: [DONE]\n\n"]) := by
  refine ⟨?_, ?_, ?_⟩
  · intro hne
    simp [stream_n8n_response, hcf, hne]
  · intro h200 hs hsf
    simp [stream_n8n_response, hcf, h200, hs, hsf]
  · intro h200 hs hj
    simp [stream_n8n_response, hcf, h200, hs, hj]

/-- C5 witness: the status-branch theorem applied at the concrete 2xx
status 201, which lands on the error-frame side. -/
theorem C5_status_branch_witness :
    (201 : Nat) ≠ 200 ∧
    (stream_n8n_response egStreamEnvelope none
        { status := 201, errorText := "created", chunks := ["x"] } 0 0).frames
      = [webhookErrorFrame "created"] :=
  ⟨by decide, (C5_status_branch egStreamEnvelope none _ 0 0 rfl).1 (by decide)⟩

/-- C6 counterexample: with the webhook URL set to the empty string the
status endpoint reports configured = true and status "ready", because
get_status compares only against the literal placeholder; the claim
asserted configured: false for the empty URL as well. -/
theorem C6_cex :
    (get_status "").configured = true ∧ (get_status "").status = "ready" := by
  refine ⟨by decide, by decide⟩

/-- C6 (amended): POST /chat/completions fails with HTTP 500 (before
any upstream call: the error branch returns without constructing the
streaming response) both for the placeholder URL and for the empty URL;
GET / reports configured false with status "not_configured" only for
the placeholder URL, while for the empty URL it reports configured true
with status "ready". -/
theorem C6_config_gate (authTokenCfg : String) (body : N8NChatCompletionRequest)
    (user : UserModel) :
    (chat_completions "YOUR_N8N_WEBHOOK_URL" authTokenCfg body user).1
        = Except.error { status_code := 500,
                         detail := "n8n webhook URL not configured. Please set the N8N_WEBHOOK_URL." } ∧
    (chat_completions "" authTokenCfg body user).1
        = Except.error { status_code := 500,
                         detail := "n8n webhook URL not configured. Please set the N8N_WEBHOOK_URL." } ∧
    get_status "YOUR_N8N_WEBHOOK_URL"
        = { status := "not_configured", configured := false, model := "n8n-agent",
            description := "n8n Webhook Integration for Open WebUI" } ∧
    get_status ""
        = { status := "ready", configured := true, model := "n8n-agent",
            description := "n8n Webhook Integration for Open WebUI" } :=
  ⟨rfl, rfl, by decide, by decide⟩

/-- C9: the outbound envelope never carries the caller-supplied body
user field: replacing it changes nothing, and the envelope's user key
always holds the verified caller identity object. -/
theorem C9_user_not_forwarded (body : N8NChatCompletionRequest) (v : Option String)
    (user : UserModel) :
    n8n_request { body with user := v } user = n8n_request body user ∧
    (n8n_request body user).user
        = { id := user.id, name := user.name, email := user.email, role := user.role } :=
  ⟨rfl, rfl⟩

/-- C10: when the configured auth token is empty or equals the literal
placeholder, the outbound request headers are exactly the Content-Type
header: no Authorization header is attached (the placeholder is mapped
to None by the router; the empty string is passed through but rejected
by the generator's truthiness test). -/
theorem C10_no_auth_header (webhookUrlCfg authTokenCfg : String)
    (body : N8NChatCompletionRequest) (user : UserModel)
    (hu1 : webhookUrlCfg ≠ "") (hu2 : webhookUrlCfg ≠ "YOUR_N8N_WEBHOOK_URL")
    (htok : authTokenCfg = "" ∨ authTokenCfg = "YOUR_N8N_WEBHOOK_AUTH_TOKEN") :
    ∃ resp, (chat_completions webhookUrlCfg authTokenCfg body user).1 = Except.ok resp ∧
      requestHeaders resp.auth_token = [("Content-Type", "application/json")] := by
  have hcond : (webhookUrlCfg = "" || webhookUrlCfg = "YOUR_N8N_WEBHOOK_URL") = false := by
    simp [hu1, hu2]
  refine ⟨{ url := webhookUrlCfg, request_data := n8n_request body user,
            auth_token := passedAuthToken authTokenCfg,
            media_type := "text/event-stream",
            headers := [("Cache-Control", "no-cache"), ("Connection", "keep-alive"),
              ("X-Accel-Buffering", "no")] }, ?_, ?_⟩
  · dsimp only [chat_completions]
    rw [hcond]
    rfl
  · rcases htok with h | h <;> subst h <;> rfl

/-- C10 witness: the no-authorization theorem applied to a configured
URL with the empty auth token. -/
theorem C10_no_auth_header_witness :
    ("https://n8n.local/webhook" : String) ≠ "" ∧
    ("https://n8n.local/webhook" : String) ≠ "YOUR_N8N_WEBHOOK_URL" ∧
    (∃ resp, (chat_completions "https://n8n.local/webhook" "" {} egUser).1 = Except.ok resp ∧
      requestHeaders resp.auth_token = [("Content-Type", "application/json")]) :=
  ⟨by decide, by decide,
    C10_no_auth_header "https://n8n.local/webhook" "" {} egUser
      (by decide) (by decide) (Or.inl rfl)⟩

/-- C7: a transport fault at any point — while opening the connection,
while iterating the streaming body, or while reading the buffered JSON
— makes the generator end with exactly the one error frame for that
fault, classified as "Connection error" for a client error and
"Unexpected error" otherwise, appended after whatever chunk frames were
already relayed; no data: [DONE] frame follows it, and every emitted
frame (error frame included) is a well-formed data: ... blank-line SSE
frame. -/
theorem C7_transport_fault (requestData : N8NEnvelope) (authToken : Option String)
    (env : UpstreamEnv) (uuidBits : Nat) (now : Int) :
    (∀ c, env.connectFault = some c →
      (stream_n8n_response requestData authToken env uuidBits now).frames = [causeFrame c]) ∧
    (∀ c, env.connectFault = none → env.status = 200 → requestData.stream = true →
      env.streamFault = some c →
      (stream_n8n_response requestData authToken env uuidBits now).frames
        = relayChunks env.chunks ++ [causeFrame c]) ∧
    (∀ c, env.connectFault = none → env.status = 200 → requestData.stream = false →
      env.jsonFault = some c →
      (stream_n8n_response requestData authToken env uuidBits now).frames = [causeFrame c]) ∧
    (∀ m, causeFrame (Cause.clientError m)
        = "data: " ++ jsonDumps (.obj [("error", .str ("Connection error: " ++ m))]) ++ "\n\n") ∧
    (∀ m, causeFrame (Cause.unexpected m)
        = "data: " ++ jsonDumps (.obj [("error", .str ("Unexpected error: " ++ m))]) ++ "\n\n") ∧
    (∀ f ∈ (stream_n8n_response requestData authToken env uuidBits now).frames,
      ∃ core, f = "data: " ++ core ++ "\n\n") := by
  refine ⟨?_, ?_, ?_, fun m => rfl, fun m => rfl, frames_sse requestData authToken env uuidBits now⟩
  · intro c hc
    simp [stream_n8n_response, hc]
  · intro c hcf h200 hs hsf
    simp [stream_n8n_response, hcf, h200, hs, hsf]
  · intro c hcf h200 hs hj
    simp [stream_n8n_response, hcf, h200, hs, hj]

/-- C7 witness: the transport-fault theorem applied to a client error
raised after the chunk "x" was relayed. -/
theorem C7_transport_fault_witness :
    (({ chunks := ["x"], streamFault := some (Cause.clientError "boom") } : UpstreamEnv).connectFault
        = none ∧ egStreamEnvelope.stream = true) ∧
    (stream_n8n_response egStreamEnvelope none
        { chunks := ["x"], streamFault := some (Cause.clientError "boom") } 0 0).frames
      = relayChunks ["x"] ++ [causeFrame (Cause.clientError "boom")] :=
  ⟨⟨rfl, rfl⟩,
    (C7_transport_fault egStreamEnvelope none _ 0 0).2.1 (Cause.clientError "boom")
      rfl rfl rfl rfl⟩

/-- C8: a configured auth token (non-empty and not the placeholder) is
passed through by the router and produces exactly the header
Authorization: Bearer token on the outbound request; and no log line
depends on the token: the generator's log output is identical for any
two token arguments, and the router's single log line contains only
the caller's email. -/
theorem C8_bearer_header_logs (webhookUrlCfg authTokenCfg : String)
    (body : N8NChatCompletionRequest) (user : UserModel)
    (requestData : N8NEnvelope) (t1 t2 : Option String) (env : UpstreamEnv)
    (uuidBits : Nat) (now : Int)
    (hu1 : webhookUrlCfg ≠ "") (hu2 : webhookUrlCfg ≠ "YOUR_N8N_WEBHOOK_URL")
    (ht1 : authTokenCfg ≠ "") (ht2 : authTokenCfg ≠ "YOUR_N8N_WEBHOOK_AUTH_TOKEN") :
    (∃ resp, (chat_completions webhookUrlCfg authTokenCfg body user).1 = Except.ok resp ∧
        resp.auth_token = some authTokenCfg ∧
        ("Authorization", "Bearer " ++ authTokenCfg) ∈ requestHeaders resp.auth_token) ∧
    (stream_n8n_response requestData t1 env uuidBits now).logs
        = (stream_n8n_response requestData t2 env uuidBits now).logs ∧
    (chat_completions webhookUrlCfg authTokenCfg body user).2
        = ["n8n chat completion request from user: " ++ user.email] := by
  have hcond : (webhookUrlCfg = "" || webhookUrlCfg = "YOUR_N8N_WEBHOOK_URL") = false := by
    simp [hu1, hu2]
  refine ⟨⟨{ url := webhookUrlCfg, request_data := n8n_request body user,
             auth_token := passedAuthToken authTokenCfg,
             media_type := "text/event-stream",
             headers := [("Cache-Control", "no-cache"), ("Connection", "keep-alive"),
               ("X-Accel-Buffering", "no")] }, ?_, ?_, ?_⟩, rfl, ?_⟩
  · dsimp only [chat_completions]
    rw [hcond]
    rfl
  · dsimp only []
    simp [passedAuthToken, ht2]
  · dsimp only []
    simp [requestHeaders, passedAuthToken, ht1, ht2]
  · dsimp only [chat_completions]
    rw [hcond]
    rfl

/-- C8 witness: the bearer-header theorem applied to the concrete
configured token "secret-token". -/
theorem C8_bearer_header_logs_witness :
    ("secret-token" : String) ≠ "" ∧
    ("secret-token" : String) ≠ "YOUR_N8N_WEBHOOK_AUTH_TOKEN" ∧
    (∃ resp, (chat_completions "https://n8n.local/webhook" "secret-token" {} egUser).1
        = Except.ok resp ∧
      resp.auth_token = some "secret-token" ∧
      ("Authorization", "Bearer " ++ "secret-token") ∈ requestHeaders resp.auth_token) :=
  ⟨by decide, by decide,
    (C8_bearer_header_logs "https://n8n.local/webhook" "secret-token" {} egUser
      egEnvelope none none {} 0 0 (by decide) (by decide) (by decide) (by decide)).1⟩
